import Mathlib

/-!
Verification development for the algo-trading repository (TQQQ/SQQQ bots).

The definitions below are a shallow embedding of the Python sources:
  * src/tqqq_bot_aws_ec2/tqqq_sqqq_bot.py  (class TQQQSQQQTradingBot)
  * src/tqqq_bot/tqqq_trading_bot.py       (class TQQQTradingBot)
Python floats are modelled as rationals, Optional[float] as Option ℚ,
broker/network effects as explicit environment parameters, and raised
exceptions as Except outcomes.
-/

namespace AlgoTrading

/-- Order side, mirroring alpaca's OrderSide enum as used by the bots. -/
inductive Side
  | buy
  | sell
deriving DecidableEq, Repr

/-- The string the bots derive from the side: action = "BUY" if side == OrderSide.BUY else "SELL". -/
def sideAction : Side → String
  | .buy => "BUY"
  | .sell => "SELL"

/-- Python truthiness for an Optional[float]: None and 0.0 are falsy. Used to
model guards such as `if not self.current_price_7am`. -/
def truthy : Option ℚ → Bool
  | none => false
  | some x => decide (x ≠ 0)

/-- One entry of self.today_trades as appended by place_order
(tqqq_sqqq_bot.py lines 218-225): action, symbol, quantity, price, order id.
The timestamp is omitted; quantity is a rational because the Python value is a
float (the closing call passes float(position.qty)). -/
structure TradeRecord where
  action : String
  symbol : String
  quantity : ℚ
  price : ℚ
  orderId : ℕ
deriving DecidableEq, Repr

/-! ## Price Oracle: get_current_price -/

/-- Outcome of one call to data_client.get_stock_latest_quote for the
requested symbol: the call raises, the symbol is missing from the returned
dict, or a quote with optional ask/bid prices is returned. -/
inductive AttemptResult
  | exn
  | noQuote
  | quote (ask bid : Option ℚ)
deriving DecidableEq, Repr

/-- The code's fallback test `if price == 0 or price is None` on an
Optional[float]. -/
def zeroOrAbsent (o : Option ℚ) : Prop := o = none ∨ o = some 0

instance (o : Option ℚ) : Decidable (zeroOrAbsent o) := by
  unfold zeroOrAbsent; infer_instance

/-- The body of one loop iteration of
TQQQSQQQTradingBot.get_current_price (lines 126-147): take the ask, fall back
to the bid when the ask is 0 or None, and accept the result only when it is
truthy and strictly positive (`if price and price > 0`). Exceptions and a
missing quote yield no price for this attempt. -/
def attemptPrice : AttemptResult → Option ℚ
  | .exn => none
  | .noQuote => none
  | .quote ask bid =>
    let price := if zeroOrAbsent ask then bid else ask
    match price with
    | some p => if 0 < p then some p else none
    | none => none

/-- max_retries in TQQQSQQQTradingBot.get_current_price (line 122). -/
def max_retries : ℕ := 3

/-- retry_delay seconds slept between failed attempts (line 123). -/
def retry_delay : ℚ := 2

/-- The `for attempt in range(max_retries)` loop: consume attempt outcomes in
order, returning the first accepted price. -/
def getPriceLoop (env : ℕ → AttemptResult) : ℕ → ℕ → Option ℚ
  | _, 0 => none
  | i, Nat.succ n =>
    match attemptPrice (env i) with
    | some p => some p
    | none => getPriceLoop env (i + 1) n

/-- TQQQSQQQTradingBot.get_current_price (lines 120-149), parameterised by the
environment's response to each successive quote request. Returns None after
max_retries failed attempts. -/
def get_current_price (env : ℕ → AttemptResult) : Option ℚ :=
  getPriceLoop env 0 max_retries

/-- An attempt that the retrying oracle cannot turn into a price in the sense
of the spec: the request failed, the symbol was absent, or both ask and bid
are zero or absent. -/
def attemptFailed : AttemptResult → Prop
  | .exn => True
  | .noQuote => True
  | .quote ask bid => zeroOrAbsent ask ∧ zeroOrAbsent bid

/-- TQQQTradingBot.get_current_price (tqqq_trading_bot.py lines 95-115): a
single attempt, no retry. The ask/bid fallback is the same, but there is no
positivity check: any numeric price reached after the fallback is returned
via `return float(price)` (a zero price included). When the price is None the
f-string `f"...{price:.2f}"` raises and the except branch returns None. -/
def tqqq_bot_get_current_price (att : AttemptResult) : Option ℚ :=
  match att with
  | .exn => none
  | .noQuote => none
  | .quote ask bid =>
    let price := if zeroOrAbsent ask then bid else ask
    match price with
    | some p => some p
    | none => none

/-! ## Scheduler: wait_until_time -/

/-- Result of wait_until_time: whether the checkpoint was reached (True) or
already past (False), together with the sequence of sleep durations issued. -/
structure WaitResult where
  reached : Bool
  sleeps : List ℚ
deriving DecidableEq, Repr

/-- Seconds since local midnight of today's target time
`now.replace(hour=h, minute=m, second=0, microsecond=0)`. -/
def targetSeconds (h m : ℕ) : ℚ := ((h * 60 + m) * 60 : ℕ)

/-- The sleep loop of wait_until_time (lines 174-182): sleep in 60-second
chunks, finishing with one final sleep of the remainder. Fuel bounds the
recursion; wait_until_time supplies enough fuel for the loop to run to
completion. -/
def sleepLoop : ℕ → ℚ → List ℚ
  | 0, _ => []
  | Nat.succ fuel, ws =>
    if 0 < ws then
      if 60 < ws then 60 :: sleepLoop fuel (ws - 60) else [ws]
    else []

/-- TQQQSQQQTradingBot.wait_until_time (lines 160-184), with `now` the current
time as seconds since local midnight. If `now` is strictly past the target
(`if now_pdt > target_time`) it returns False immediately, issuing no sleep;
otherwise it sleeps until the target and returns True. The logic of
TQQQTradingBot.wait_until_time (lines 127-150) is identical. -/
def wait_until_time (now : ℚ) (h m : ℕ) : WaitResult :=
  let target := targetSeconds h m
  if target < now then
    ⟨false, []⟩
  else
    let ws := target - now
    ⟨true, sleepLoop ((ws / 60).ceil.toNat + 1) ws⟩

/-! ## Order Executor: place_order -/

/-- Outcome of trading_client.submit_order: accepted with an order id, or
raising (rejection / transport error). -/
inductive SubmitResult
  | accepted (oid : ℕ)
  | rejected (msg : String)
deriving DecidableEq, Repr

/-- What one call to place_order produces: the returned value (the order on
success, None on the except path), the TradeRecords appended to
self.today_trades, and the titles of the notifications sent. -/
structure OrderOutcome where
  result : Option ℕ
  appended : List TradeRecord
  notifs : List String
deriving DecidableEq, Repr

/-- TQQQSQQQTradingBot.place_order (lines 186-235), parameterised by the
submit outcome and by the result of the best-effort
`self.get_current_price(symbol)` read performed after submission. When that
read returns None, the f-string `f"... at ~$\x7bcurrent_price:.2f\x7d"` on line 207
raises TypeError inside the try block, so the except branch runs: an
"Order Failed" notification is sent, nothing is appended, and None is
returned - even though the broker accepted the order.
TQQQTradingBot.place_order (lines 152-193) has the same structure. -/
def place_order (symbol : String) (side : Side) (qty : ℚ)
    (submit : SubmitResult) (readBack : Option ℚ) : OrderOutcome :=
  match submit with
  | .rejected _ => ⟨none, [], ["Order Failed"]⟩
  | .accepted oid =>
    match readBack with
    | none => ⟨none, [], ["Order Failed"]⟩
    | some p =>
      ⟨some oid, [⟨sideAction side, symbol, qty, p, oid⟩],
        ["Trade Executed: " ++ sideAction side ++ " " ++ symbol]⟩

/-- self.quantity, the per-trade share count set in __init__ (line 49) and
used when place_order is called with quantity=None. -/
def defaultQuantity : ℚ := 1

/-! ## Position Ledger: get_position -/

/-- TQQQSQQQTradingBot.get_position (lines 237-247): scan
trading_client.get_all_positions() for the symbol and return the first hit;
return None when no position matches - and also return None on the except
path, when the broker query raises (transport/auth failure).
TQQQTradingBot.get_position (lines 195-205) is identical for its one symbol.
A position is modelled as (symbol, qty). -/
def get_position (queryResult : Except String (List (String × ℚ)))
    (symbol : String) : Option (String × ℚ) :=
  match queryResult with
  | .error _ => none
  | .ok positions => positions.find? (fun p => p.1 = symbol)

/-! ## Strategy Engine: execute_entry_strategy -/

/-- Environment for one call to execute_entry_strategy: the 7:00 AM TQQQ
price fetch, the SQQQ price fetch made in the inverse branch, and the
submit/read-back environments of the place_order call each branch may make. -/
structure EntryEnv where
  price7 : Option ℚ
  sqqqPrice : Option ℚ
  submitT : SubmitResult
  readT : Option ℚ
  submitS : SubmitResult
  readS : Option ℚ
deriving DecidableEq, Repr

/-- What execute_entry_strategy did: orders submitted to the broker
(symbol, side, quantity), TradeRecords appended, notification titles sent,
and whether the "Failed to get SQQQ price" error was logged (line 325, a log
entry with no notification). -/
structure EntryResult where
  submitted : List (String × Side × ℚ)
  trades : List TradeRecord
  notifs : List String
  sqqqFetchFailedLog : Bool
deriving DecidableEq, Repr

/-- TQQQSQQQTradingBot.execute_entry_strategy (lines 271-325). The guard
`if not self.current_price_7am or not self.open_price_630am` uses Python
truthiness. When 7:00 price > 6:30 open, a BUY for TQQQ is placed; otherwise
(tie included) the inverse branch runs: it first fetches a fresh SQQQ price
and places a BUY for SQQQ only when that fetch is truthy, else it only logs. -/
def execute_entry_strategy (openPrice : Option ℚ) (env : EntryEnv) :
    EntryResult :=
  if ¬ truthy env.price7 ∨ ¬ truthy openPrice then
    ⟨[], [], ["Strategy Error"], false⟩
  else
    let P := env.price7.getD 0
    let O := openPrice.getD 0
    if O < P then
      let o := place_order "TQQQ" .buy defaultQuantity env.submitT env.readT
      ⟨[("TQQQ", .buy, defaultQuantity)], o.appended,
        o.notifs ++ (if o.result.isSome then ["BUY TQQQ Signal"] else []),
        false⟩
    else
      if truthy env.sqqqPrice then
        let o := place_order "SQQQ" .buy defaultQuantity env.submitS env.readS
        ⟨[("SQQQ", .buy, defaultQuantity)], o.appended,
          o.notifs ++ (if o.result.isSome then ["BUY SQQQ Signal"] else []),
          false⟩
      else
        ⟨[], [], [], true⟩

/-- The branch selected by TQQQTradingBot.execute_morning_strategy
(tqqq_trading_bot.py lines 228-258): BUY TQQQ when the 7:00 price is strictly
above the open, otherwise the SELL/skip branch (this variant has no inverse
instrument configured). -/
inductive MorningBranch
  | buyLong
  | sellOrSkip
deriving DecidableEq, Repr

/-- The decision on line 228 of tqqq_trading_bot.py:
`if self.seven_am_price > self.market_open_price`. -/
def morning_decision (openP p7 : ℚ) : MorningBranch :=
  if openP < p7 then .buyLong else .sellOrSkip

/-! ## Strategy Engine: close_positions -/

/-- Environment for close_positions: for each of the two tracked symbols, the
result of get_position (None when the broker reports no position or the query
failed; some qty otherwise), the close-time price fetch, and the
submit/read-back environments of the possible place_order call. -/
structure CloseEnv where
  tqqqPos : Option ℚ
  sqqqPos : Option ℚ
  tqqqPrice : Option ℚ
  sqqqPrice : Option ℚ
  submitT : SubmitResult
  readT : Option ℚ
  submitS : SubmitResult
  readS : Option ℚ
deriving DecidableEq, Repr

/-- What close_positions did: broker submissions, appended TradeRecords,
notification titles. -/
structure CloseResult where
  submitted : List (String × Side × ℚ)
  trades : List TradeRecord
  notifs : List String
deriving DecidableEq, Repr

/-- One symbol's block of TQQQSQQQTradingBot.close_positions
(lines 334-353 for TQQQ, 355-382 for SQQQ): when get_position returned a
position with qty > 0, fetch the current price and sell the broker-reported
quantity. If the price fetch returns None, the f-string on line 340/361
(`f"Closing ... at $\x7bcurrent_price:.2f\x7d"`) raises TypeError before any order
is submitted - modelled as an Except.error that propagates out of
close_positions. The returned triple is (submissions, appended records,
number of entries added to the positions_closed list). -/
def closeSymbol (symbol : String) (pos : Option ℚ) (price : Option ℚ)
    (submit : SubmitResult) (readBack : Option ℚ) :
    Except Unit (List (String × Side × ℚ) × List TradeRecord × List String × ℕ) :=
  match pos with
  | none => .ok ([], [], [], 0)
  | some q =>
    if 0 < q then
      match price with
      | none => .error ()
      | some _ =>
        let o := place_order symbol .sell q submit readBack
        .ok ([(symbol, .sell, q)], o.appended, o.notifs,
          if o.result.isSome then 1 else 0)
    else
      .ok ([], [], [], 0)

/-- TQQQSQQQTradingBot.close_positions (lines 327-395): handle TQQQ then
SQQQ, then notify "Positions Closed at 12:59 PM" when at least one close
order succeeded, else "No Positions". A TypeError raised in either block
propagates (Except.error). Note the `float(position.qty) > 0` guards: a
negative (short) broker quantity is never closed, and no BUY-to-cover path
exists. TQQQTradingBot.close_position (tqqq_trading_bot.py lines 260-291)
has the same `float(position.qty) > 0` guard for its single symbol. -/
def close_positions (env : CloseEnv) : Except Unit CloseResult :=
  match closeSymbol "TQQQ" env.tqqqPos env.tqqqPrice env.submitT env.readT with
  | .error e => .error e
  | .ok (s1, t1, n1, c1) =>
    match closeSymbol "SQQQ" env.sqqqPos env.sqqqPrice env.submitS env.readS with
    | .error e => .error e
    | .ok (s2, t2, n2, c2) =>
      .ok ⟨s1 ++ s2, t1 ++ t2,
        n1 ++ n2 ++
          (if 0 < c1 + c2 then ["Positions Closed at 12:59 PM"]
           else ["No Positions"])⟩

/-! ## Strategy Engine: run -/

/-- The checkpoint actions the main loop can perform, in order. -/
inductive Step
  | capture
  | entry
  | close
  | summary
deriving DecidableEq, Repr

/-- What one day's run did: the captured open price state, the checkpoint
actions performed, broker submissions, the final today_trades list,
notification titles in order, and whether an exception reached the top-level
handler (the "Bot Error" / re-raise path, which skips the summary). -/
structure RunResult where
  openPrice : Option ℚ
  steps : List Step
  submitted : List (String × Side × ℚ)
  trades : List TradeRecord
  notifs : List String
  crashed : Bool
deriving DecidableEq, Repr

/-- Empty entry result, used when the entry checkpoint is skipped. -/
def emptyEntry : EntryResult := ⟨[], [], [], false⟩

/-- capture_open_price (lines 249-269): store the fetch result as
self.open_price_630am and notify on either outcome. Returns the notification
title it sends. -/
def captureNotif : Option ℚ → String
  | some _ => "Open Price Captured"
  | none => "Error: Open Price"

/-- TQQQSQQQTradingBot.run (lines 477-519), parameterised by the result of
each of the three wait_until_time calls (reached versus already-passed) and
by the environments of the checkpoint bodies. A skipped checkpoint's action
is not performed and the next checkpoint is still evaluated. After the exit
checkpoint, generate_daily_summary always runs and "Bot Completed" is
notified - unless an exception propagated from close_positions, in which
case the top-level `except Exception` notifies "Bot Error" and re-raises,
reaching neither the summary nor "Bot Completed". -/
def run (r630 r700 r1259 : Bool) (captureFetch : Option ℚ)
    (eenv : EntryEnv) (cenv : CloseEnv) : RunResult :=
  let openPrice := if r630 then captureFetch else none
  let capSteps := if r630 then [Step.capture] else []
  let capNotifs := if r630 then [captureNotif captureFetch] else []
  let er := if r700 then execute_entry_strategy openPrice eenv else emptyEntry
  let entrySteps := if r700 then [Step.entry] else []
  if r1259 then
    match close_positions cenv with
    | .error _ =>
      ⟨openPrice, capSteps ++ entrySteps ++ [Step.close],
        er.submitted, er.trades,
        capNotifs ++ er.notifs ++ ["Bot Error"], true⟩
    | .ok c =>
      ⟨openPrice, capSteps ++ entrySteps ++ [Step.close, Step.summary],
        er.submitted ++ c.submitted, er.trades ++ c.trades,
        capNotifs ++ er.notifs ++ c.notifs ++ ["Daily Summary", "Bot Completed"],
        false⟩
  else
    ⟨openPrice, capSteps ++ entrySteps ++ [Step.summary],
      er.submitted, er.trades,
      capNotifs ++ er.notifs ++ ["Daily Summary", "Bot Completed"], false⟩

/-! ## Shutdown handling -/

/-- Externally visible actions on the cancellation path. -/
inductive BotEvent
  | notify (title : String)
  | exitProcess (code : ℕ)
  | summaryAttempt
deriving DecidableEq, Repr

/-- TQQQSQQQTradingBot._handle_shutdown (lines 82-86), installed for SIGTERM
and SIGINT in __init__: send a "Bot Shutdown" notification, then sys.exit(0). -/
def handle_shutdown_events : List BotEvent :=
  [.notify "Bot Shutdown", .exitProcess 0]

/-- The exceptions run's top-level handlers (lines 513-519) can see. -/
inductive PyException
  | keyboardInterrupt
  | exception
  | systemExit
deriving DecidableEq, Repr

/-- Dispatch of run's handlers: `except KeyboardInterrupt` notifies
"Bot Stopped"; `except Exception` notifies "Bot Error" and re-raises.
SystemExit (raised by sys.exit in _handle_shutdown) derives from
BaseException, matches neither clause and propagates uncaught (None). None
of the three paths reaches generate_daily_summary, which is called earlier
in the try body. -/
def run_top_level_handler : PyException → Option (List BotEvent)
  | .keyboardInterrupt => some [.notify "Bot Stopped"]
  | .exception => some [.notify "Bot Error"]
  | .systemExit => none

/-- The full event sequence when a shutdown signal arrives during a
wait_until_time sleep: the signal handler runs, its sys.exit(0) raises
SystemExit inside run's try block, and the uncaught SystemExit ends the
process. -/
def cancellation_events : List BotEvent :=
  handle_shutdown_events ++ (run_top_level_handler .systemExit).getD []

/-! ## Helper lemmas -/

lemma truthy_some_of_pos {x : ℚ} (hx : 0 < x) : truthy (some x) = true := by
  simp [truthy, ne_of_gt hx]

lemma place_order_appended_quantity (symbol : String) (side : Side) (q : ℚ)
    (submit : SubmitResult) (rb : Option ℚ) :
    ∀ t ∈ (place_order symbol side q submit rb).appended, t.quantity = q := by
  intro t ht
  cases submit with
  | rejected m => simp [place_order] at ht
  | accepted oid =>
    cases rb with
    | none => simp [place_order] at ht
    | some p =>
      simp [place_order] at ht
      subst ht
      rfl

lemma closeSymbol_ok_trades (sym : String) (pos price : Option ℚ)
    (submit : SubmitResult) (rb : Option ℚ)
    (s : List (String × Side × ℚ)) (t : List TradeRecord) (n : List String)
    (c : ℕ) (h : closeSymbol sym pos price submit rb = .ok (s, t, n, c)) :
    ∀ r ∈ t, 0 < r.quantity := by
  cases pos with
  | none =>
    simp [closeSymbol] at h
    obtain ⟨-, ht, -, -⟩ := h
    subst ht
    intro r hr
    simp at hr
  | some q =>
    by_cases hq : 0 < q
    · cases price with
      | none => simp [closeSymbol, hq] at h
      | some p =>
        simp [closeSymbol, hq] at h
        obtain ⟨-, ht, -, -⟩ := h
        subst ht
        intro r hr
        have := place_order_appended_quantity sym .sell q submit rb r hr
        rw [this]
        exact hq
    · simp [closeSymbol, hq] at h
      obtain ⟨-, ht, -, -⟩ := h
      subst ht
      intro r hr
      simp at hr

lemma attemptFailed_price {a : AttemptResult} (h : attemptFailed a) :
    attemptPrice a = none := by
  cases a with
  | exn => rfl
  | noQuote => rfl
  | quote ask bid =>
    obtain ⟨ha, hb⟩ := h
    rcases hb with hb | hb <;>
      simp [attemptPrice, ha, hb]

lemma get_current_price_eq (env : ℕ → AttemptResult) :
    get_current_price env =
      match attemptPrice (env 0) with
      | some p => some p
      | none =>
        match attemptPrice (env 1) with
        | some p => some p
        | none =>
          match attemptPrice (env 2) with
          | some p => some p
          | none => none := rfl

/-! ## Claims -/

/-- C1: entry decision rule. With the captured open O and the decision-time
price P of the reference symbol both available (positive), if P > O the
engine submits a BUY for TQQQ; if P ≤ O - the tie included - it takes the
inverse branch and submits a BUY for SQQQ (here when the fresh SQQQ price
fetch is truthy, as the inverse order is placed through it), and it never
routes the tie to the long branch; the single-symbol variant likewise routes
the tie away from its buy-long branch. -/
theorem c1_entry_decision_rule (O P : ℚ) (hO : 0 < O) (hP : 0 < P)
    (env : EntryEnv) (h7 : env.price7 = some P) :
    ((O < P) →
      (execute_entry_strategy (some O) env).submitted =
        [("TQQQ", Side.buy, 1)]) ∧
    ((P ≤ O) →
      (∀ x ∈ (execute_entry_strategy (some O) env).submitted,
        x.1 = "SQQQ" ∧ x.2.1 = Side.buy) ∧
      (truthy env.sqqqPrice = true →
        (execute_entry_strategy (some O) env).submitted =
          [("SQQQ", Side.buy, 1)])) ∧
    ((P ≤ O) → morning_decision O P = MorningBranch.sellOrSkip) := by
  have hPt : truthy (some P) = true := truthy_some_of_pos hP
  have hOt : truthy (some O) = true := truthy_some_of_pos hO
  refine ⟨?_, ?_, ?_⟩
  · intro hlt
    simp [execute_entry_strategy, h7, hPt, hOt, hlt, defaultQuantity]
  · intro hle
    have hnlt : ¬ O < P := not_lt.mpr hle
    constructor
    · intro x hx
      by_cases hsq : truthy env.sqqqPrice = true
      · simp [execute_entry_strategy, h7, hPt, hOt, hnlt, hsq,
          defaultQuantity] at hx
        subst hx
        exact ⟨rfl, rfl⟩
      · simp [execute_entry_strategy, h7, hPt, hOt, hnlt, hsq] at hx
    · intro hsq
      simp [execute_entry_strategy, h7, hPt, hOt, hnlt, hsq, defaultQuantity]
  · intro hle
    simp [morning_decision, not_lt.mpr hle]

/-- C1 witness: O = 45, P = 46 makes the engine submit a BUY for TQQQ. -/
theorem c1_entry_decision_rule_witness :
    (execute_entry_strategy (some 45)
      ⟨some 46, none, .accepted 1, some 46, .accepted 2, some 46⟩).submitted =
      [("TQQQ", Side.buy, 1)] :=
  (c1_entry_decision_rule 45 46 (by norm_num) (by norm_num)
    ⟨some 46, none, .accepted 1, some 46, .accepted 2, some 46⟩ rfl).1
    (by norm_num)

/-- C9: when the broker accepts the order but the best-effort price read
returns None, the f-string formatting raises inside place_order's try block,
so place_order returns None, emits an "Order Failed" notification and appends
no TradeRecord - the broker-accepted order is absent from the day's trade
list. -/
theorem c9_accepted_order_lost (sym : String) (side : Side) (q : ℚ)
    (oid : ℕ) :
    place_order sym side q (.accepted oid) none =
      ⟨none, [], ["Order Failed"]⟩ := rfl

/-- C2 counterexample: the broker reports a nonzero (negative, short) TQQQ
quantity of -1 at the exit checkpoint, yet close_positions submits no order
at all (the guard is `float(position.qty) > 0` and no BUY-to-cover path
exists): it reports "No Positions". This refutes the claim that every
nonzero broker-reported quantity gets exactly one closing order. -/
theorem c2_counterexample :
    close_positions
      ⟨some (-1), none, some 10, some 10,
        .accepted 1, some 10, .accepted 2, some 10⟩ =
      .ok ⟨[], [], ["No Positions"]⟩ := rfl

/-- C2 amended: at the exit checkpoint, every tracked symbol whose
broker-reported quantity is strictly positive (and whose close-time price
fetch succeeds, which the code needs in order to reach the submission) gets
exactly one SELL order whose quantity equals the broker-reported quantity;
symbols with zero, negative or no reported quantity get no closing order -
there is no BUY-to-cover path for negative quantities. -/
theorem c2_amended_close_rule (cenv : CloseEnv) (pT pS : ℚ)
    (hT : cenv.tqqqPrice = some pT) (hS : cenv.sqqqPrice = some pS) :
    ∃ r, close_positions cenv = .ok r ∧
      (∀ q, cenv.tqqqPos = some q → 0 < q →
        r.submitted.filter (fun x => x.1 = "TQQQ") =
          [("TQQQ", Side.sell, q)]) ∧
      (∀ q, cenv.tqqqPos = some q → q ≤ 0 →
        r.submitted.filter (fun x => x.1 = "TQQQ") = []) ∧
      (cenv.tqqqPos = none →
        r.submitted.filter (fun x => x.1 = "TQQQ") = []) ∧
      (∀ q, cenv.sqqqPos = some q → 0 < q →
        r.submitted.filter (fun x => x.1 = "SQQQ") =
          [("SQQQ", Side.sell, q)]) ∧
      (∀ q, cenv.sqqqPos = some q → q ≤ 0 →
        r.submitted.filter (fun x => x.1 = "SQQQ") = []) ∧
      (cenv.sqqqPos = none →
        r.submitted.filter (fun x => x.1 = "SQQQ") = []) := by
  obtain ⟨tp, sp, tq, sq, sT, rT, sS, rS⟩ := cenv
  simp only at hT hS
  subst hT hS
  rcases tp with - | q1
  · rcases sp with - | q2
    · refine ⟨_, by simp [close_positions, closeSymbol] <;> rfl, ?_⟩
      simp [close_positions, closeSymbol]
    · by_cases h2 : 0 < q2
      · refine ⟨_, by simp [close_positions, closeSymbol, h2] <;> rfl, ?_⟩
        simp [close_positions, closeSymbol, h2] <;>
          first | exact not_lt.mp h2 | exact h2
      · refine ⟨_, by simp [close_positions, closeSymbol, h2] <;> rfl, ?_⟩
        simp [close_positions, closeSymbol, h2] <;>
          first | exact not_lt.mp h2 | exact h2
  · by_cases h1 : 0 < q1
    · rcases sp with - | q2
      · refine ⟨_, by simp [close_positions, closeSymbol, h1] <;> rfl, ?_⟩
        simp [close_positions, closeSymbol, h1] <;>
          first | exact not_lt.mp h1 | exact h1
      · by_cases h2 : 0 < q2
        · refine ⟨_, by simp [close_positions, closeSymbol, h1, h2] <;> rfl, ?_⟩
          simp [close_positions, closeSymbol, h1, h2] <;>
            first | exact not_lt.mp h1 | exact not_lt.mp h2 | exact h1 | exact h2
        · refine ⟨_, by simp [close_positions, closeSymbol, h1, h2] <;> rfl, ?_⟩
          simp [close_positions, closeSymbol, h1, h2] <;>
            first | exact not_lt.mp h1 | exact not_lt.mp h2 | exact h1 | exact h2
    · rcases sp with - | q2
      · refine ⟨_, by simp [close_positions, closeSymbol, h1] <;> rfl, ?_⟩
        simp [close_positions, closeSymbol, h1] <;>
          first | exact not_lt.mp h1 | exact h1
      · by_cases h2 : 0 < q2
        · refine ⟨_, by simp [close_positions, closeSymbol, h1, h2] <;> rfl, ?_⟩
          simp [close_positions, closeSymbol, h1, h2] <;>
            first | exact not_lt.mp h1 | exact not_lt.mp h2 | exact h1 | exact h2
        · refine ⟨_, by simp [close_positions, closeSymbol, h1, h2] <;> rfl, ?_⟩
          simp [close_positions, closeSymbol, h1, h2] <;>
            first
              | exact not_lt.mp h1
              | exact not_lt.mp h2
              | exact ⟨not_lt.mp h1, not_lt.mp h2⟩

/-- C3 counterexample: in TQQQTradingBot.get_current_price (one of the two
Price Oracle implementations the claim covers), a quote whose ask and bid are
both zero makes getPrice return the numeric price 0.0 instead of the
PriceUnavailable outcome None, after a single attempt with no backoff. -/
theorem c3_counterexample :
    tqqq_bot_get_current_price (.quote (some 0) (some 0)) = some 0 ∧
    tqqq_bot_get_current_price (.quote (some 0) (some 0)) ≠ none := by
  constructor
  · rfl
  · simp [tqqq_bot_get_current_price, zeroOrAbsent]

/-- C3 amended: the retrying oracle (TQQQSQQQTradingBot.get_current_price)
satisfies the contract for nonnegative quote prices: it returns the ask when
the ask is present and nonzero (positive), falls back to the bid when the ask
is zero or absent and the bid is nonzero (positive), returns None when all of
its at most 3 attempts fail or see only zero-or-absent prices, and never
consults more than the first 3 attempt outcomes. The single-attempt oracle
(TQQQTradingBot.get_current_price) performs exactly one attempt with no
backoff and returns the numeric 0.0 when both ask and bid are zero. -/
theorem c3_amended_oracle_contract :
    (∀ (env : ℕ → AttemptResult) (a : ℚ) (bid : Option ℚ),
      0 < a → env 0 = .quote (some a) bid → get_current_price env = some a) ∧
    (∀ (env : ℕ → AttemptResult) (ask : Option ℚ) (b : ℚ),
      zeroOrAbsent ask → 0 < b → env 0 = .quote ask (some b) →
      get_current_price env = some b) ∧
    (∀ env : ℕ → AttemptResult,
      (∀ i < 3, attemptFailed (env i)) → get_current_price env = none) ∧
    (∀ env env' : ℕ → AttemptResult,
      (∀ i < 3, env i = env' i) →
      get_current_price env = get_current_price env') ∧
    tqqq_bot_get_current_price (.quote (some 0) (some 0)) = some 0 := by
  refine ⟨?_, ?_, ?_, ?_, rfl⟩
  · intro env a bid ha h0
    have hz : ¬ zeroOrAbsent (some a) := by
      simp [zeroOrAbsent]
      exact ne_of_gt ha
    rw [get_current_price_eq, h0]
    simp [attemptPrice, hz, ha]
  · intro env ask b hask hb h0
    rw [get_current_price_eq, h0]
    simp [attemptPrice, hask, hb]
  · intro env h
    have e0 := attemptFailed_price (h 0 (by norm_num))
    have e1 := attemptFailed_price (h 1 (by norm_num))
    have e2 := attemptFailed_price (h 2 (by norm_num))
    rw [get_current_price_eq, e0, e1, e2]
  · intro env env' h
    rw [get_current_price_eq, get_current_price_eq,
      h 0 (by norm_num), h 1 (by norm_num), h 2 (by norm_num)]

/-- C3 witness: a first attempt quoting ask 5 makes the retrying oracle
return 5. -/
theorem c3_amended_oracle_contract_witness :
    get_current_price (fun _ => .quote (some 5) none) = some 5 :=
  c3_amended_oracle_contract.1 (fun _ => .quote (some 5) none) 5 none
    (by norm_num) rfl

/-- C2 witness: broker reports TQQQ qty 3 and SQQQ qty -2; the amended rule
applies at this input. -/
theorem c2_amended_close_rule_witness :
    ∃ r, close_positions
        ⟨some 3, some (-2), some 10, some 11,
          .accepted 1, some 10, .accepted 2, some 11⟩ = .ok r ∧
      (∀ q, (some (3:ℚ)) = some q → 0 < q →
        r.submitted.filter (fun x => x.1 = "TQQQ") =
          [("TQQQ", Side.sell, q)]) ∧
      (∀ q, (some (3:ℚ)) = some q → q ≤ 0 →
        r.submitted.filter (fun x => x.1 = "TQQQ") = []) ∧
      ((some (3:ℚ)) = none →
        r.submitted.filter (fun x => x.1 = "TQQQ") = []) ∧
      (∀ q, (some (-2:ℚ)) = some q → 0 < q →
        r.submitted.filter (fun x => x.1 = "SQQQ") =
          [("SQQQ", Side.sell, q)]) ∧
      (∀ q, (some (-2:ℚ)) = some q → q ≤ 0 →
        r.submitted.filter (fun x => x.1 = "SQQQ") = []) ∧
      ((some (-2:ℚ)) = none →
        r.submitted.filter (fun x => x.1 = "SQQQ") = []) :=
  c2_amended_close_rule
    ⟨some 3, some (-2), some 10, some 11,
      .accepted 1, some 10, .accepted 2, some 11⟩ 10 11 rfl rfl

/-- C4: if the entry-time price fetch for the reference symbol returns None,
or the captured-open price is missing, execute_entry_strategy submits no
order and sends a "Strategy Error" notification, and the run still performs
the exit checkpoint action and the summary step (here under the hypothesis
that the exit checkpoint itself completes without raising). -/
theorem c4_entry_price_unavailable (captureFetch : Option ℚ)
    (eenv : EntryEnv) (cenv : CloseEnv) (res : CloseResult)
    (hmiss : eenv.price7 = none ∨ captureFetch = none)
    (hclose : close_positions cenv = .ok res) :
    (execute_entry_strategy captureFetch eenv).submitted = [] ∧
    "Strategy Error" ∈ (execute_entry_strategy captureFetch eenv).notifs ∧
    Step.close ∈ (run true true true captureFetch eenv cenv).steps ∧
    Step.summary ∈ (run true true true captureFetch eenv cenv).steps ∧
    (run true true true captureFetch eenv cenv).crashed = false ∧
    "Strategy Error" ∈ (run true true true captureFetch eenv cenv).notifs := by
  have hguard : (¬ truthy eenv.price7 = true ∨ ¬ truthy captureFetch = true) := by
    rcases hmiss with h | h <;> rw [h] <;> simp [truthy]
  have hentry : execute_entry_strategy captureFetch eenv =
      ⟨[], [], ["Strategy Error"], false⟩ := by
    rcases hguard with h | h <;> simp [execute_entry_strategy, h]
  refine ⟨by rw [hentry], by rw [hentry]; simp, ?_, ?_, ?_, ?_⟩ <;>
    simp [run, hclose, hentry]

/-- C4 witness: entry fetch returns None, broker reports no positions at the
exit checkpoint; the entry order is skipped, "Strategy Error" is sent, and
close plus summary still run. -/
theorem c4_entry_price_unavailable_witness :
    (execute_entry_strategy (some 45)
      ⟨none, none, .accepted 1, some 45, .accepted 2, some 45⟩).submitted = [] ∧
    "Strategy Error" ∈ (execute_entry_strategy (some 45)
      ⟨none, none, .accepted 1, some 45, .accepted 2, some 45⟩).notifs ∧
    Step.close ∈ (run true true true (some 45)
      ⟨none, none, .accepted 1, some 45, .accepted 2, some 45⟩
      ⟨none, none, none, none, .accepted 3, some 45, .accepted 4, some 45⟩).steps ∧
    Step.summary ∈ (run true true true (some 45)
      ⟨none, none, .accepted 1, some 45, .accepted 2, some 45⟩
      ⟨none, none, none, none, .accepted 3, some 45, .accepted 4, some 45⟩).steps ∧
    (run true true true (some 45)
      ⟨none, none, .accepted 1, some 45, .accepted 2, some 45⟩
      ⟨none, none, none, none, .accepted 3, some 45, .accepted 4, some 45⟩).crashed = false ∧
    "Strategy Error" ∈ (run true true true (some 45)
      ⟨none, none, .accepted 1, some 45, .accepted 2, some 45⟩
      ⟨none, none, none, none, .accepted 3, some 45, .accepted 4, some 45⟩).notifs :=
  c4_entry_price_unavailable (some 45)
    ⟨none, none, .accepted 1, some 45, .accepted 2, some 45⟩
    ⟨none, none, none, none, .accepted 3, some 45, .accepted 4, some 45⟩
    ⟨[], [], ["No Positions"]⟩ (Or.inl rfl) rfl

/-- C5: a checkpoint whose target time-of-day is strictly earlier than the
current wall-clock time when wait_until_time is evaluated returns False
(skipped) immediately with no sleep, and the engine then proceeds: the
skipped checkpoint's action is not performed, the later checkpoints and the
summary still run, and nothing is treated as fatal (here shown with the
entry checkpoint skipped, under the hypothesis that the exit checkpoint
completes without raising). -/
theorem c5_scheduler_skip (now : ℚ) (h m : ℕ)
    (hpast : targetSeconds h m < now) (captureFetch : Option ℚ)
    (eenv : EntryEnv) (cenv : CloseEnv) (res : CloseResult)
    (hclose : close_positions cenv = .ok res) :
    wait_until_time now h m = ⟨false, []⟩ ∧
    Step.entry ∉
      (run true (wait_until_time now h m).reached true captureFetch eenv cenv).steps ∧
    Step.close ∈
      (run true (wait_until_time now h m).reached true captureFetch eenv cenv).steps ∧
    Step.summary ∈
      (run true (wait_until_time now h m).reached true captureFetch eenv cenv).steps ∧
    (run true (wait_until_time now h m).reached true captureFetch eenv cenv).crashed
      = false ∧
    (run true (wait_until_time now h m).reached true captureFetch eenv cenv).submitted
      = res.submitted := by
  have hw : wait_until_time now h m = ⟨false, []⟩ := by
    simp [wait_until_time, hpast]
  refine ⟨hw, ?_, ?_, ?_, ?_, ?_⟩ <;>
    simp [hw, run, hclose, emptyEntry]

/-- C5 witness: at one second past 7:00 AM (25201 seconds after midnight),
the 7:00 checkpoint is skipped, no entry action runs, and close and summary
still run. -/
theorem c5_scheduler_skip_witness :
    wait_until_time 25201 7 0 = ⟨false, []⟩ ∧
    Step.entry ∉
      (run true (wait_until_time 25201 7 0).reached true (some 45)
        ⟨some 46, none, .accepted 1, some 46, .accepted 2, some 46⟩
        ⟨none, none, none, none, .accepted 3, some 45, .accepted 4, some 45⟩).steps ∧
    Step.close ∈
      (run true (wait_until_time 25201 7 0).reached true (some 45)
        ⟨some 46, none, .accepted 1, some 46, .accepted 2, some 46⟩
        ⟨none, none, none, none, .accepted 3, some 45, .accepted 4, some 45⟩).steps ∧
    Step.summary ∈
      (run true (wait_until_time 25201 7 0).reached true (some 45)
        ⟨some 46, none, .accepted 1, some 46, .accepted 2, some 46⟩
        ⟨none, none, none, none, .accepted 3, some 45, .accepted 4, some 45⟩).steps ∧
    (run true (wait_until_time 25201 7 0).reached true (some 45)
        ⟨some 46, none, .accepted 1, some 46, .accepted 2, some 46⟩
        ⟨none, none, none, none, .accepted 3, some 45, .accepted 4, some 45⟩).crashed
      = false ∧
    (run true (wait_until_time 25201 7 0).reached true (some 45)
        ⟨some 46, none, .accepted 1, some 46, .accepted 2, some 46⟩
        ⟨none, none, none, none, .accepted 3, some 45, .accepted 4, some 45⟩).submitted
      = (⟨[], [], ["No Positions"]⟩ : CloseResult).submitted :=
  c5_scheduler_skip 25201 7 0 (by norm_num [targetSeconds]) (some 45)
    ⟨some 46, none, .accepted 1, some 46, .accepted 2, some 46⟩
    ⟨none, none, none, none, .accepted 3, some 45, .accepted 4, some 45⟩
    ⟨[], [], ["No Positions"]⟩ rfl

/-- C6 counterexample: the claim says a cancellation during a Scheduler wait
still invokes the end-of-day summary attempt before the process exits. On
the code's cancellation path - _handle_shutdown sends "Bot Shutdown" and
calls sys.exit(0), whose SystemExit is caught by none of run's handlers -
no summary attempt occurs. -/
theorem c6_counterexample :
    BotEvent.summaryAttempt ∉ cancellation_events := by decide

/-- C6 amended: a shutdown signal during a Scheduler wait interrupts it,
sends a "Bot Shutdown" notification and exits the process with code 0;
SystemExit propagates uncaught through run's handlers, so no further
checkpoint actions are performed and the end-of-day summary is NOT
attempted. -/
theorem c6_amended_shutdown :
    cancellation_events =
      [BotEvent.notify "Bot Shutdown", BotEvent.exitProcess 0] ∧
    run_top_level_handler .systemExit = none ∧
    BotEvent.exitProcess 0 ∈ cancellation_events := by decide

/-- C7 counterexample: a transport/auth failure during the broker position
query makes get_position return None - the very same outcome it returns when
the broker reports no position - so the caller cannot distinguish "no
position" from "query failed", contrary to the claim. -/
theorem c7_counterexample :
    get_position (.error "auth failure") "TQQQ" = none ∧
    get_position (.ok []) "TQQQ" = none := ⟨rfl, rfl⟩

/-- C7 amended: get_position returns None when the broker reports no
position for the symbol, and ALSO returns None (after logging) when the
query raises; a failure is therefore mapped to the same None outcome rather
than surfaced as a distinct hard error. On a successful query the result is
None exactly when no reported position matches the symbol. -/
theorem c7_amended_get_position :
    (∀ (e : String) (sym : String), get_position (.error e) sym = none) ∧
    (∀ (ps : List (String × ℚ)) (sym : String),
      get_position (.ok ps) sym = none ↔ ∀ p ∈ ps, p.1 ≠ sym) := by
  constructor
  · intro e sym
    rfl
  · intro ps sym
    simp [get_position, List.find?_eq_none]

/-- C7 witness: a failing query and an empty position list both yield None
for TQQQ. -/
theorem c7_amended_get_position_witness :
    get_position (.error "boom") "TQQQ" = none ∧
    (get_position (.ok []) "TQQQ" = none ↔
      ∀ p ∈ ([] : List (String × ℚ)), p.1 ≠ "TQQQ") :=
  ⟨c7_amended_get_position.1 "boom" "TQQQ",
    c7_amended_get_position.2 [] "TQQQ"⟩

/-- C8 counterexample: the broker can report a fractional position quantity
(positions are floats; Alpaca supports fractional shares). With a
broker-reported TQQQ quantity of 1/2, close_positions appends a TradeRecord
whose quantity is 1/2 - positive, but not an integer - refuting the claim
that every appended TradeRecord has a positive integer quantity. -/
theorem c8_counterexample :
    close_positions
      ⟨some (1/2), none, some 10, some 10,
        .accepted 7, some 10, .accepted 8, some 10⟩ =
      .ok ⟨[("TQQQ", Side.sell, 1/2)],
        [⟨"SELL", "TQQQ", 1/2, 10, 7⟩],
        ["Trade Executed: SELL TQQQ", "Positions Closed at 12:59 PM"]⟩ ∧
    ¬ ∃ n : ℤ, ((1 : ℚ)/2) = (n : ℚ) := by
  constructor
  · have h : (0 : ℚ) < 1/2 := by norm_num
    simp [close_positions, closeSymbol, place_order, sideAction, h]
  · rintro ⟨n, hn⟩
    have h2 : (1 : ℚ) = 2 * (n : ℚ) := by
      field_simp at hn
      linarith
    have h3 : (1 : ℤ) = 2 * n := by exact_mod_cast h2
    omega

/-- C8 amended: every TradeRecord appended by place_order during the day has
a strictly positive quantity: entry trades are appended with the configured
quantity 1, and the closing trade's quantity is the broker-reported quantity,
which the `qty > 0` guard makes positive but which need not be an integer. -/
theorem c8_amended_positive_quantity (openPrice : Option ℚ)
    (eenv : EntryEnv) (cenv : CloseEnv) (res : CloseResult)
    (hclose : close_positions cenv = .ok res) :
    (∀ t ∈ (execute_entry_strategy openPrice eenv).trades, t.quantity = 1) ∧
    (∀ t ∈ res.trades, 0 < t.quantity) := by
  constructor
  · intro t ht
    by_cases hg : (¬ truthy eenv.price7 = true ∨ ¬ truthy openPrice = true)
    · simp [execute_entry_strategy, hg] at ht
      rcases hg with h | h <;> simp [h] at ht
    · push_neg at hg
      obtain ⟨h7, hOp⟩ := hg
      by_cases hlt : openPrice.getD 0 < eenv.price7.getD 0
      · simp [execute_entry_strategy, h7, hOp, hlt] at ht
        have := place_order_appended_quantity "TQQQ" .buy defaultQuantity
          eenv.submitT eenv.readT t ht
        rw [this]
        rfl
      · by_cases hsq : truthy eenv.sqqqPrice = true
        · simp [execute_entry_strategy, h7, hOp, hlt, hsq] at ht
          have := place_order_appended_quantity "SQQQ" .buy defaultQuantity
            eenv.submitS eenv.readS t ht
          rw [this]
          rfl
        · simp [execute_entry_strategy, h7, hOp, hlt, hsq] at ht
  · obtain ⟨tp, sp, tq, sq, sT, rT, sS, rS⟩ := cenv
    rcases hT : closeSymbol "TQQQ" tp tq sT rT with e1 | ⟨s1, t1, n1, c1⟩
    · simp [close_positions, hT] at hclose
    · rcases hS : closeSymbol "SQQQ" sp sq sS rS with e2 | ⟨s2, t2, n2, c2⟩
      · simp [close_positions, hT, hS] at hclose
      · simp [close_positions, hT, hS] at hclose
        have htr : res.trades = t1 ++ t2 := by
          rw [← hclose]
        intro t ht
        rw [htr] at ht
        rcases List.mem_append.mp ht with h | h
        · exact closeSymbol_ok_trades "TQQQ" tp tq sT rT s1 t1 n1 c1 hT t h
        · exact closeSymbol_ok_trades "SQQQ" sp sq sS rS s2 t2 n2 c2 hS t h

/-- C8 witness: at a concrete day - entry buys 1 share of TQQQ, the exit
closes a broker-reported TQQQ quantity of 3 - every entry record has
quantity 1 and every closing record has positive quantity. -/
theorem c8_amended_positive_quantity_witness :
    (∀ t ∈ (execute_entry_strategy (some 45)
      ⟨some 46, none, .accepted 1, some 46, .accepted 2, some 46⟩).trades,
      t.quantity = 1) ∧
    (∀ t ∈ (⟨[("TQQQ", Side.sell, 3)], [⟨"SELL", "TQQQ", 3, 44, 9⟩],
        ["Trade Executed: SELL TQQQ", "Positions Closed at 12:59 PM"]⟩ :
        CloseResult).trades,
      0 < t.quantity) :=
  c8_amended_positive_quantity (some 45)
    ⟨some 46, none, .accepted 1, some 46, .accepted 2, some 46⟩
    ⟨some 3, none, some 44, none, .accepted 9, some 44, .accepted 10, none⟩
    ⟨[("TQQQ", Side.sell, 3)], [⟨"SELL", "TQQQ", 3, 44, 9⟩],
      ["Trade Executed: SELL TQQQ", "Positions Closed at 12:59 PM"]⟩ rfl

/-- C10: when the entry decision routes to the inverse branch (7:00 price ≤
captured open) and the fresh SQQQ price fetch returns None, no order is
submitted, no notification is emitted - only the "Failed to get SQQQ price"
log entry - and the day still proceeds to the exit checkpoint and the
summary (under the hypothesis that the exit checkpoint completes without
raising). -/
theorem c10_inverse_branch_fetch_failure (O P : ℚ) (eenv : EntryEnv)
    (cenv : CloseEnv) (res : CloseResult) (hO : 0 < O) (hP : 0 < P)
    (hle : P ≤ O) (h7 : eenv.price7 = some P) (hsq : eenv.sqqqPrice = none)
    (hclose : close_positions cenv = .ok res) :
    (execute_entry_strategy (some O) eenv).submitted = [] ∧
    (execute_entry_strategy (some O) eenv).notifs = [] ∧
    (execute_entry_strategy (some O) eenv).sqqqFetchFailedLog = true ∧
    Step.close ∈ (run true true true (some O) eenv cenv).steps ∧
    Step.summary ∈ (run true true true (some O) eenv cenv).steps ∧
    (run true true true (some O) eenv cenv).crashed = false := by
  have hPt : truthy (some P) = true := truthy_some_of_pos hP
  have hOt : truthy (some O) = true := truthy_some_of_pos hO
  have hnlt : ¬ (O < P) := not_lt.mpr hle
  have hsqf : truthy eenv.sqqqPrice = false := by rw [hsq]; rfl
  have hentry : execute_entry_strategy (some O) eenv = ⟨[], [], [], true⟩ := by
    simp [execute_entry_strategy, h7, hPt, hOt, hnlt, hsqf]
  refine ⟨by rw [hentry], by rw [hentry], by rw [hentry], ?_, ?_, ?_⟩ <;>
    simp [run, hclose, hentry]

/-- C10 witness: O = 45, P = 45 (tie) with a failed SQQQ fetch - no order,
no notification, and close plus summary still run. -/
theorem c10_inverse_branch_fetch_failure_witness :
    (execute_entry_strategy (some 45)
      ⟨some 45, none, .accepted 1, some 45, .accepted 2, some 45⟩).submitted
        = [] ∧
    (execute_entry_strategy (some 45)
      ⟨some 45, none, .accepted 1, some 45, .accepted 2, some 45⟩).notifs
        = [] ∧
    (execute_entry_strategy (some 45)
      ⟨some 45, none, .accepted 1, some 45, .accepted 2, some 45⟩).sqqqFetchFailedLog
        = true ∧
    Step.close ∈ (run true true true (some 45)
      ⟨some 45, none, .accepted 1, some 45, .accepted 2, some 45⟩
      ⟨none, none, none, none, .accepted 3, some 45, .accepted 4, some 45⟩).steps ∧
    Step.summary ∈ (run true true true (some 45)
      ⟨some 45, none, .accepted 1, some 45, .accepted 2, some 45⟩
      ⟨none, none, none, none, .accepted 3, some 45, .accepted 4, some 45⟩).steps ∧
    (run true true true (some 45)
      ⟨some 45, none, .accepted 1, some 45, .accepted 2, some 45⟩
      ⟨none, none, none, none, .accepted 3, some 45, .accepted 4, some 45⟩).crashed
        = false :=
  c10_inverse_branch_fetch_failure 45 45
    ⟨some 45, none, .accepted 1, some 45, .accepted 2, some 45⟩
    ⟨none, none, none, none, .accepted 3, some 45, .accepted 4, some 45⟩
    ⟨[], [], ["No Positions"]⟩ (by norm_num) (by norm_num) le_rfl rfl rfl rfl

end AlgoTrading
